import Mathlib

/-!
# Verification of the uix-sdk cross-realm proxy core

Shallow embedding of the uix-sdk sources:
* `src/packages/uix-core/src/phantogram/phantogram.ts` (`setupApiExchange`),
* `src/packages/uix-host/src/port.ts` (`Port.hasCapabilities`, `Port.isReady`),
* `src/src/react/components/Extensible.tsx` (`areExtensionsDifferent`),
* the id helper module (`makeId`).

Components whose sources are not in the repository snapshot (the ticket
registry, the tunnel, the RPC dispatcher, the deferred-timeout wrapper and
the object simulator) are modelled from the specification, as marked on each
definition.
-/

/-! ## Id helpers (`makeId`) -/

/-- `GUEST_UI_ID_SUFFIX` from the id helper module. -/
def GUEST_UI_ID_SUFFIX : String := "ui"

/-- `GUEST_SERVER_ID_SUFFIX` from the id helper module. -/
def GUEST_SERVER_ID_SUFFIX : String := "server"

/-- `ID_CONNECTOR` from the id helper module. -/
def ID_CONNECTOR : String := "-"

/-- `LegalSuffix`: the union type of the two legal suffix string literals. -/
inductive LegalSuffix where
  | server
  | ui
deriving DecidableEq, Repr

/-- The string denoted by a `LegalSuffix` member. -/
def LegalSuffix.toString : LegalSuffix → String
  | .server => GUEST_SERVER_ID_SUFFIX
  | .ui => GUEST_UI_ID_SUFFIX

/-- `makeId(prefix, suffix)`: the template literal
`prefix + ID_CONNECTOR + suffix`. -/
def makeId (pre : String) (suffix : LegalSuffix) : String :=
  pre ++ ID_CONNECTOR ++ suffix.toString

/-! ## Ticket registry

Modelled from the spec: `tickets.ts` is not in the snapshot; §4.1 specifies
`newTicket()` issuing identifiers distinct from all previously issued ones
in-process, and a reserved well-known `INIT_TICKET` used only for the
handshake. We model the registry as a monotone counter and the ticket space
as the reserved value plus the issued naturals. -/

/-- A ticket: the reserved handshake ticket, or the `n`-th issued one. -/
inductive Ticket where
  | init
  | issued (n : Nat)
deriving DecidableEq, Repr

/-- `INIT_TICKET`: the reserved well-known handshake ticket. -/
def INIT_TICKET : Ticket := .init

/-- Modelled from the spec: `newTicket()` draws the next identifier from the
in-process counter and advances it. -/
def newTicket (counter : Nat) : Ticket × Nat :=
  (.issued counter, counter + 1)

/-- The ticket returned by the `n`-th call to `newTicket` (counting from 0). -/
def nthTicket (n : Nat) : Ticket :=
  .issued n

/-- The list of tickets issued by `k` successive `newTicket` calls starting
from counter state `s`. -/
def ticketStream : Nat → Nat → List Ticket
  | 0, _ => []
  | k + 1, s =>
    let (t, s') := newTicket s
    t :: ticketStream k s'

/-! ## Errors

The error taxonomy of §7, as far as the embedded components need it. -/

/-- Errors that can settle the orchestration promise: the `Timeout` error
minted by the deferred-timeout wrapper (carrying its label), a tunnel
destruction reason, or a failure of the initial send. -/
inductive Err where
  | timeoutErr (label : String)
  | destroyedReason (reason : String)
  | sendFailure (reason : String)
deriving DecidableEq, Repr

/-! ## Object graphs, mirrors and the message envelope

Modelled from the spec: `object-simulator.ts`, `object-walker.ts` and
`message-wrapper.ts` are not in the snapshot. §4.4 specifies the send path:
recursively walk a value, replace every function by a stub placeholder
holding a fresh ticket, pass data leaves through unchanged. §4.2 specifies
the envelope as a ticket/payload pair that never inspects the payload. -/

/-- A live object graph: data leaves, functions, and container nodes. -/
inductive Value where
  | data (n : Nat)
  | func (id : Nat)
  | node (children : List Value)

/-- A wire-safe mirror: data leaves pass through, functions are replaced by
ticket-bearing stub placeholders, containers are rebuilt. -/
inductive Mirror where
  | data (n : Nat)
  | stub (t : Ticket)
  | node (children : List Mirror)

mutual

/-- Modelled from the spec: the object simulator's send path on one value,
threading the fresh-ticket counter. -/
def mirrorOf (counter : Nat) : Value → Mirror × Nat
  | .data n => (.data n, counter)
  | .func _ => (.stub (.issued counter), counter + 1)
  | .node cs =>
    let (ms, c') := mirrorList counter cs
    (.node ms, c')

/-- Modelled from the spec: the send path on a list of children. -/
def mirrorList (counter : Nat) : List Value → List Mirror × Nat
  | [] => ([], counter)
  | v :: vs =>
    let (m, c') := mirrorOf counter v
    let (ms, c'') := mirrorList c' vs
    (m :: ms, c'')

end

/-- `WrappedMessage`: the envelope of §4.2 — a ticket tag and a payload.
The payload is optional because the handshake message `wrap(INIT_TICKET)`
carries none at wrapping time. -/
structure WrappedMessage where
  ticketOrType : Ticket
  payload : Option Mirror

/-- Modelled from the spec: `wrap(ticket)` builds the envelope. -/
def wrap (t : Ticket) : WrappedMessage :=
  ⟨t, none⟩

/-- `INIT_MESSAGE` from `phantogram.ts`: `wrap(INIT_TICKET)`. -/
def INIT_MESSAGE : WrappedMessage :=
  wrap INIT_TICKET

/-! ## Tunnel lifecycle

Modelled from the spec: `tunnel.ts` is not in the snapshot. §4.6 specifies
states `connecting -> connected -> destroyed` (terminal), `destroy()`
tearing down the channel and emitting `destroyed`, idempotent, and §7 that
teardown errors are swallowed. -/

/-- The tunnel lifecycle states of §4.6. -/
inductive TunnelState where
  | connecting
  | connected
  | destroyed
deriving DecidableEq, Repr

/-- A tunnel: its current lifecycle state, whether the raw channel is still
open, and the log of lifecycle event names it has emitted. -/
structure Tunnel where
  state : TunnelState
  channelOpen : Bool
  events : List String
deriving DecidableEq, Repr

/-- Modelled from the spec: `tunnel.destroy()`. A first call from any
non-destroyed state closes the channel and emits one `destroyed` event; a
call on an already-destroyed tunnel is a no-op. `teardownRaised` records
whether tearing down the raw channel raised; the result never depends on
it, because teardown errors are swallowed. -/
def Tunnel.destroy (t : Tunnel) (teardownRaised : Bool) : Tunnel :=
  if t.state = .destroyed then t
  else { state := .destroyed, channelOpen := false, events := t.events ++ ["destroyed"] }

/-! ## The orchestration machine (`setupApiExchange`)

Embedding of `setupApiExchange` in `phantogram.ts`. The source installs on
the tunnel:
* `apiCallback` on the `api` event — stores the materialized remote API in
  the captured `remoteApi` variable and, on first receipt (`!done`),
  resolves the inner promise with the single `phantogram` handle;
* a `receiveCalls` subscription with scope `INIT_TICKET` that re-emits the
  incoming remote API as a local `api` event (skipped once unsubscribed);
* `destroy` on the `destroyed` event — unsubscribes the `receiveCalls`
  subscription and, if `!done`, rejects the inner promise with the
  destruction reason;
* on `connected` — sends `apiToSend` through the simulator's sender bound
  to `INIT_MESSAGE`; a send failure runs `destroy` with the failure.
The whole inner promise is raced by `timeoutPromise` (label
`"Initial API exchange"`, duration `tunnel.config.timeout`) whose
`onTimeout` destroys the tunnel; the timer is single-shot, scheduled at the
configured duration, cancelled when the operation settles first (§4.3,
modelled from the spec since `promises/timed.ts` is not in the snapshot).

Promise semantics are modelled single-threaded: the state records the
orchestration promise's outcome, the `done` flag, the `remoteApi` variable,
whether the `receiveCalls` subscription was unsubscribed, whether the
tunnel was destroyed, the local `api` events emitted and the messages sent
on the channel. Each environment event (tunnel lifecycle event, arrival of
the remote init message, the timer firing) is a step tagged with its time
in milliseconds. -/

/-- The outcome of the orchestration promise returned by
`setupApiExchange`: still pending, resolved with the one `phantogram`
handle, or rejected with an error. -/
inductive Outcome where
  | pending
  | resolvedHandle
  | rejected (e : Err)
deriving DecidableEq, Repr

/-- The orchestration state: the `done` flag, the `remoteApi` variable read
by `getRemoteApi()` (`none` before first receipt), the promise outcome, the
unsubscription flag of the `receiveCalls` subscription, whether the tunnel
has been destroyed, the emitted local `api` events and the sent messages. -/
structure OrchState where
  done : Bool
  remoteApi : Option Nat
  outcome : Outcome
  unsubscribed : Bool
  tunnelDestroyed : Bool
  apiEvents : List Nat
  sentMessages : List (Ticket × Mirror)

/-- The state when `setupApiExchange` has installed its handlers and
nothing has happened yet. -/
def initialOrch : OrchState :=
  ⟨false, none, .pending, false, false, [], []⟩

/-- Environment events driving one orchestration: the tunnel connecting
(with `none` for a successful initial send, or the send failure), the
remote's init message arriving with a materialized remote API, the tunnel
emitting `destroyed` with a reason, and the deferred-timeout timer firing. -/
inductive OrchEv where
  | connected (sendErr : Option Err)
  | initMsg (api : Nat)
  | destroyedEv (e : Err)
  | timerFire
deriving DecidableEq, Repr

/-- The orchestration's timeout configuration (`tunnel.config.timeout`). -/
structure Config where
  timeout : Nat
deriving DecidableEq, Repr

/-- The `destroy` handler of `setupApiExchange`: unsubscribe the
`receiveCalls` subscription; if not `done`, set `done` and reject the inner
promise (which settles the orchestration only while it is still pending). -/
def destroyHandler (s : OrchState) (e : Err) : OrchState :=
  let s := { s with unsubscribed := true }
  if s.done then s
  else
    { s with
      done := true
      outcome := if s.outcome = .pending then .rejected e else s.outcome }

/-- The `apiCallback` handler: store the materialized API in `remoteApi`;
if not `done`, set `done` and resolve the inner promise with the
`phantogram` handle. -/
def apiCallback (s : OrchState) (api : Nat) : OrchState :=
  let s := { s with remoteApi := some api, apiEvents := s.apiEvents ++ [api] }
  if s.done then s
  else
    { s with
      done := true
      outcome := if s.outcome = .pending then .resolvedHandle else s.outcome }

/-- One step of the orchestration on a time-tagged environment event.

* `connected`: the sender bound to `INIT_MESSAGE` mirrors `apiToSend` and
  sends it tagged with `INIT_TICKET`; if the send fails, the failure runs
  the `destroy` handler instead.
* `initMsg`: the `receiveCalls` subscription (unless unsubscribed)
  re-emits the materialized remote API locally, running `apiCallback`.
* `destroyedEv`: runs the `destroy` handler with the destruction reason.
* `timerFire`: the single-shot timer of `timeoutPromise` fires at the
  configured duration while the orchestration is unsettled; `onTimeout`
  destroys the tunnel and the race fails with the `Timeout` error carrying
  the label. Once the orchestration is settled the timer is cancelled, and
  at any other time the timer is not scheduled, so the event is a no-op. -/
def orchStep (cfg : Config) (apiToSend : Value) (s : OrchState) :
    Nat × OrchEv → OrchState
  | (_, .connected none) =>
    { s with
      sentMessages :=
        s.sentMessages ++ [(INIT_MESSAGE.ticketOrType, (mirrorOf 0 apiToSend).1)] }
  | (_, .connected (some e)) => destroyHandler s e
  | (_, .initMsg api) => if s.unsubscribed then s else apiCallback s api
  | (_, .destroyedEv e) => { destroyHandler s e with tunnelDestroyed := true }
  | (t, .timerFire) =>
    if t = cfg.timeout ∧ s.outcome = .pending then
      { s with
        tunnelDestroyed := true
        outcome := .rejected (.timeoutErr "Initial API exchange") }
    else s

/-- Run the orchestration over a trace of time-tagged events. -/
def orchRun (cfg : Config) (apiToSend : Value) (s : OrchState)
    (tr : List (Nat × OrchEv)) : OrchState :=
  tr.foldl (orchStep cfg apiToSend) s

/-! ## Pending remote calls

Modelled from the spec: `rpc.ts` and the call-frame bookkeeping are not in
the snapshot. §4.4/§4.5/§5/§7 specify: a stub invocation creates a pending
call frame with a per-call timer; the call's future settles on the
correlated response (value or typed error), on the per-call timeout with
`Timeout`, on session reset with `Stale`, or on tunnel destruction with
`Destroyed`; settling is absorbing (a `CallFrame` never outlives its
ticket's resolution or timeout). -/

/-- The typed call errors of §7. -/
inductive CallErr where
  | timeout
  | destroyed
  | stale
  | targetGone
  | remoteError (detail : String)
  | protocolError
deriving DecidableEq, Repr

/-- The state of one pending remote call's future. -/
inductive CallOutcome where
  | pending
  | response (v : Nat)
  | failed (e : CallErr)
deriving DecidableEq, Repr

/-- Events that can reach one pending call: the correlated response (value
or typed error), the per-call timer firing, tunnel destruction, session
reset. -/
inductive CallEv where
  | response (v : Nat)
  | errResponse (e : CallErr)
  | timerTick
  | tunnelDestroy
  | reset
deriving DecidableEq, Repr

/-- Modelled from the spec: one step of a call's future. A pending call
settles on any of the events; a settled call absorbs everything. -/
def callStep (s : CallOutcome) (ev : CallEv) : CallOutcome :=
  match s with
  | .pending =>
    match ev with
    | .response v => .response v
    | .errResponse e => .failed e
    | .timerTick => .failed .timeout
    | .tunnelDestroy => .failed .destroyed
    | .reset => .failed .stale
  | .response v => .response v
  | .failed e => .failed e

/-- Run one call's future over the events that reach it. -/
def callRun (s : CallOutcome) (tr : List CallEv) : CallOutcome :=
  tr.foldl callStep s

/-- Modelled from the spec: tunnel destruction reaches every pending call
in the dispatcher's table. -/
def destroyAllCalls (table : List CallOutcome) : List CallOutcome :=
  table.map (callStep · .tunnelDestroy)

/-! ## `Port` (`port.ts`)

`Port.hasCapabilities`, `Port.isReady` and `Port.assertReady`. A guest API
namespace is an object whose properties are either functions or data; the
`apis` dictionary maps namespace keys to such objects. Association-list
lookup models JS property access (`Reflect.has` plus indexing). -/

/-- A property of a guest API object: a function, or any non-function
value. -/
inductive Member where
  | functionMember
  | dataMember (n : Nat)
deriving DecidableEq, Repr

/-- One guest API namespace: named properties. -/
abbrev GuestApi := List (String × Member)

/-- A capability spec: for each namespace key, the method names required
under it (`CapabilitySpec` in `port.ts`). -/
abbrev CapabilitySpec := List (String × List String)

/-- Association-list lookup, modelling `Reflect.has` followed by property
access: `some v` exactly when the key is present, bound to `v`. -/
def lookupKey {α : Type} (k : String) : List (String × α) → Option α
  | [] => none
  | (k', v) :: rest => if k = k' then some v else lookupKey k rest

/-- The fields of `Port` that its readiness and capability checks read. -/
structure Port where
  id : String
  apis : List (String × GuestApi)
  isLoaded : Bool
  error : Option String

/-- `Port.isReady()`: `this.isLoaded && !this.error`. -/
def Port.isReady (p : Port) : Bool :=
  p.isLoaded && p.error.isNone

/-- `Port.assert(condition, errorMessage)`: throws
`Error in guest extension "id": message` when the condition fails. -/
def Port.assert (p : Port) (condition : Bool) (errorMessage : String) :
    Except String Unit :=
  if condition then .ok ()
  else .error ("Error in guest extension \"" ++ p.id ++ "\": " ++ errorMessage)

/-- `Port.assertReady()`: asserts `isReady()`. -/
def Port.assertReady (p : Port) : Except String Unit :=
  p.assert p.isReady "Attempted to interact before loaded"

/-- `Port.hasCapabilities(requiredMethods)`: after `assertReady`, every
required key must be present in `this.apis` and every required method name
under it must be a property of that namespace whose type is a function. -/
def Port.hasCapabilities (p : Port) (requiredMethods : CapabilitySpec) :
    Except String Bool := do
  let _ ← p.assertReady
  return requiredMethods.all fun kv =>
    match lookupKey kv.1 p.apis with
    | none => false
    | some api =>
      kv.2.all fun methodName =>
        match lookupKey methodName api with
        | some .functionMember => true
        | _ => false

/-! ## `Extensible` (`Extensible.tsx`)

`areExtensionsDifferent` and the `installedRef` update at the top of the
`Extensible` component. Extension sets are modelled as association lists
from extension id to an opaque value; `Object.keys` is the list of keys,
and the default JS sort is modelled by `List.mergeSort` on strings. -/

/-- An installed-extensions set: extension ids bound to opaque values. -/
abbrev InstalledExtensions := List (String × Nat)

/-- The sorted id list `Object.keys(set).sort()`. -/
def sortedIds (s : InstalledExtensions) : List String :=
  (s.map Prod.fst).mergeSort (· ≤ ·)

/-- `areExtensionsDifferent(set1, set2)`: the sorted key lists differ in
length, or some position of the first list differs from the same position
of the second. -/
def areExtensionsDifferent (set1 set2 : InstalledExtensions) : Bool :=
  let ids1 := sortedIds set1
  let ids2 := sortedIds set2
  ids1.length != ids2.length ||
    (List.range ids1.length).any fun i => ids1.getD i "" != ids2.getD i ""

/-- The `installedRef` update in `Extensible`: replace the current value
when there is none yet or when the sets differ, otherwise keep it. -/
def updateInstalledRef (current : Option InstalledExtensions)
    (extensions : InstalledExtensions) : InstalledExtensions :=
  match current with
  | none => extensions
  | some cur => if areExtensionsDifferent cur extensions then extensions else cur

/-! ## Theorems -/

/-- Every ticket in `ticketStream k s` is an issued ticket with index in
`[s, s + k)`. -/
theorem mem_ticketStream {k s : Nat} {t : Ticket} :
    t ∈ ticketStream k s ↔ ∃ i, s ≤ i ∧ i < s + k ∧ t = .issued i := by
  induction k generalizing s with
  | zero =>
    simp only [ticketStream, List.not_mem_nil, false_iff]
    rintro ⟨i, h1, h2, _⟩
    omega
  | succ k ih =>
    simp only [ticketStream, newTicket, List.mem_cons, ih]
    constructor
    · rintro (rfl | ⟨i, h1, h2, rfl⟩)
      · exact ⟨s, Nat.le_refl s, by omega, rfl⟩
      · exact ⟨i, by omega, by omega, rfl⟩
    · rintro ⟨i, h1, h2, rfl⟩
      rcases Nat.eq_or_lt_of_le h1 with rfl | hlt
      · exact Or.inl rfl
      · exact Or.inr ⟨i, hlt, by omega, rfl⟩

/-- Successive `newTicket` calls never repeat a ticket. -/
theorem ticketStream_nodup (k s : Nat) : (ticketStream k s).Nodup := by
  induction k generalizing s with
  | zero => simp [ticketStream]
  | succ k ih =>
    simp only [ticketStream, newTicket, List.nodup_cons]
    refine ⟨?_, ih (s + 1)⟩
    intro hmem
    rcases mem_ticketStream.1 hmem with ⟨i, h1, _, heq⟩
    cases heq
    omega

/-- `ticketStream k s` has length `k`. -/
theorem ticketStream_length (k s : Nat) : (ticketStream k s).length = k := by
  induction k generalizing s with
  | zero => rfl
  | succ k ih => simp [ticketStream, newTicket, ih]

/-- C5: distinct calls to `newTicket()` return distinct tickets (the `i`-th
and `j`-th issued tickets differ whenever `i ≠ j`); 10,000 sequential
generations yield 10,000 distinct values; and no issued ticket equals the
reserved `INIT_TICKET`. -/
theorem newTicket_distinct (i j : Nat) (h : i ≠ j) :
    nthTicket i ≠ nthTicket j
    ∧ (ticketStream 10000 0).Nodup
    ∧ (ticketStream 10000 0).length = 10000
    ∧ ∀ k s t, t ∈ ticketStream k s → t ≠ INIT_TICKET := by
  refine ⟨?_, ticketStream_nodup 10000 0, ticketStream_length 10000 0, ?_⟩
  · intro heq
    exact h (Ticket.issued.inj heq)
  · intro k s t hmem
    rcases mem_ticketStream.1 hmem with ⟨_, _, _, rfl⟩
    intro heq
    cases heq

/-- C5 witness at `i = 0`, `j = 1`. -/
theorem newTicket_distinct_witness :
    nthTicket 0 ≠ nthTicket 1
    ∧ (ticketStream 10000 0).Nodup
    ∧ (ticketStream 10000 0).length = 10000
    ∧ ∀ k s t, t ∈ ticketStream k s → t ≠ INIT_TICKET :=
  newTicket_distinct 0 1 (by decide)

/-- C10: `makeId` returns exactly the prefix, the connector `"-"` and the
suffix; the suffix is one of `"server"`/`"ui"`, so every produced id ends
with `"-server"` or `"-ui"`. -/
theorem makeId_spec (p : String) (s : LegalSuffix) :
    makeId p s = p ++ "-" ++ s.toString
    ∧ (s.toString = "server" ∨ s.toString = "ui")
    ∧ ((∃ q, makeId p s = q ++ "-server") ∨ ∃ q, makeId p s = q ++ "-ui") := by
  cases s
  · refine ⟨rfl, Or.inl rfl, Or.inl ⟨p, ?_⟩⟩
    show p ++ "-" ++ "server" = p ++ "-server"
    rw [String.append_assoc]
    rfl
  · refine ⟨rfl, Or.inr rfl, Or.inr ⟨p, ?_⟩⟩
    show p ++ "-" ++ "ui" = p ++ "-ui"
    rw [String.append_assoc]
    rfl

/-- C7: `Tunnel.destroy` moves any live tunnel to the `destroyed` state and
emits exactly one `destroyed` event; a second call (from any state,
including already destroyed) is a no-op that changes nothing and emits
nothing; and the result never depends on whether teardown raised, because
teardown errors are swallowed. -/
theorem Tunnel_destroy_spec (t : Tunnel) (b b' : Bool)
    (h : t.state ≠ .destroyed) :
    (t.destroy b).state = .destroyed
    ∧ (t.destroy b).events = t.events ++ ["destroyed"]
    ∧ (t.destroy b).destroy b' = t.destroy b
    ∧ t.destroy b = t.destroy b'
    ∧ ∀ u : Tunnel, u.state = .destroyed → u.destroy b' = u := by
  refine ⟨?_, ?_, ?_, ?_, ?_⟩
  · simp [Tunnel.destroy, h]
  · simp [Tunnel.destroy, h]
  · simp [Tunnel.destroy, h]
  · simp [Tunnel.destroy, h]
  · intro u hu
    simp [Tunnel.destroy, hu]

/-- C7 witness on a connected tunnel with an empty event log. -/
theorem Tunnel_destroy_spec_witness :
    ((Tunnel.mk .connected true []).destroy false).state = .destroyed
    ∧ ((Tunnel.mk .connected true []).destroy false).events = [] ++ ["destroyed"]
    ∧ (((Tunnel.mk .connected true []).destroy false).destroy true)
        = (Tunnel.mk .connected true []).destroy false
    ∧ (Tunnel.mk .connected true []).destroy false
        = (Tunnel.mk .connected true []).destroy true
    ∧ ∀ u : Tunnel, u.state = .destroyed → u.destroy true = u :=
  Tunnel_destroy_spec (Tunnel.mk .connected true []) false true (by decide)

/-- A settled call future absorbs every further event. -/
theorem callStep_settled (s : CallOutcome) (h : s ≠ .pending) (ev : CallEv) :
    callStep s ev = s := by
  cases s with
  | pending => exact absurd rfl h
  | response v => rfl
  | failed e => rfl

/-- A settled call future stays settled over any trace. -/
theorem callRun_settled (tr : List CallEv) :
    ∀ s : CallOutcome, s ≠ .pending → callRun s tr = s := by
  induction tr with
  | nil => intro s _; rfl
  | cons ev rest ih =>
    intro s h
    show callRun (callStep s ev) rest = s
    rw [callStep_settled s h ev]
    exact ih s h

/-- Every event settles a pending call. -/
theorem callStep_pending_ne (ev : CallEv) : callStep .pending ev ≠ .pending := by
  cases ev <;> simp [callStep]

/-- C6: a pending remote call whose trace contains its per-call timer tick
(the timer the runtime fires at the call's timeout bound unless the call
settled earlier) ends settled — resolved with a response or failed with one
of the typed errors — never pending; the per-call timer alone fails a
pending call with `Timeout`; and tunnel destruction fails every pending
call in the table with `Destroyed` while leaving settled ones unchanged. -/
theorem pendingCall_settles (tr : List CallEv) (h : CallEv.timerTick ∈ tr) :
    ((∃ v, callRun .pending tr = .response v)
      ∨ ∃ e, callRun .pending tr = .failed e)
    ∧ callRun .pending tr ≠ .pending
    ∧ callStep .pending .timerTick = .failed .timeout
    ∧ ∀ table : List CallOutcome,
        destroyAllCalls table
          = table.map fun c => if c = .pending then .failed .destroyed else c := by
  have hne : callRun .pending tr ≠ .pending := by
    cases tr with
    | nil => cases h
    | cons ev rest =>
      show callRun (callStep .pending ev) rest ≠ .pending
      rw [callRun_settled rest _ (callStep_pending_ne ev)]
      exact callStep_pending_ne ev
  refine ⟨?_, hne, rfl, ?_⟩
  · cases hrun : callRun .pending tr with
    | pending => exact absurd hrun hne
    | response v => exact Or.inl ⟨v, rfl⟩
    | failed e => exact Or.inr ⟨e, rfl⟩
  · intro table
    unfold destroyAllCalls
    congr 1
    funext c
    cases c with
    | pending => rfl
    | response v => rfl
    | failed e => rfl

/-- C6 witness: a call that only ever sees its timer tick fails with
`Timeout`. -/
theorem pendingCall_settles_witness :
    ((∃ v, callRun .pending [CallEv.timerTick] = .response v)
      ∨ ∃ e, callRun .pending [CallEv.timerTick] = .failed e)
    ∧ callRun .pending [CallEv.timerTick] ≠ .pending
    ∧ callStep .pending .timerTick = .failed .timeout
    ∧ ∀ table : List CallOutcome,
        destroyAllCalls table
          = table.map fun c => if c = .pending then .failed .destroyed else c :=
  pendingCall_settles [CallEv.timerTick] (by simp)

/-- C1: while the orchestration promise is still pending (no remote init
message has resolved it and nothing has rejected it), the single-shot timer
of `timeoutPromise` firing at the configured duration destroys the tunnel
(`onTimeout` calls `tunnel.destroy()`) and rejects the orchestration with
the `Timeout` error labelled `"Initial API exchange"`; at any other time
the timer event is a no-op, so the rejection happens at the configured
duration. -/
theorem setupApiExchange_timeout (cfg : Config) (api : Value) (s : OrchState)
    (h : s.outcome = .pending) :
    (orchStep cfg api s (cfg.timeout, .timerFire)).tunnelDestroyed = true
    ∧ (orchStep cfg api s (cfg.timeout, .timerFire)).outcome
        = .rejected (.timeoutErr "Initial API exchange")
    ∧ ∀ t, t ≠ cfg.timeout → orchStep cfg api s (t, .timerFire) = s := by
  refine ⟨?_, ?_, ?_⟩
  · simp [orchStep, h]
  · simp [orchStep, h]
  · intro t ht
    simp [orchStep, ht]

/-- C1 witness: the fresh orchestration state with a 5000 ms timeout. -/
theorem setupApiExchange_timeout_witness :
    (orchStep ⟨5000⟩ (.data 0) initialOrch (5000, .timerFire)).tunnelDestroyed = true
    ∧ (orchStep ⟨5000⟩ (.data 0) initialOrch (5000, .timerFire)).outcome
        = .rejected (.timeoutErr "Initial API exchange")
    ∧ ∀ t, t ≠ (5000 : Nat) →
        orchStep ⟨5000⟩ (.data 0) initialOrch (t, .timerFire) = initialOrch :=
  setupApiExchange_timeout ⟨5000⟩ (.data 0) initialOrch rfl

/-- C2: once the orchestration has resolved (`done` set, outcome the
resolved handle) and while the `receiveCalls` subscription is still live, a
re-sent remote API re-runs `apiCallback`: a fresh local `api` event is
emitted, the `remoteApi` variable behind the existing handle's
`getRemoteApi()` is updated to the refreshed materialization, and the
outcome stays the originally resolved handle — the promise is not settled
again and no new handle is minted. -/
theorem setupApiExchange_reemit (cfg : Config) (api : Value) (s : OrchState)
    (a t : Nat) (hdone : s.done = true) (hres : s.outcome = .resolvedHandle)
    (hsub : s.unsubscribed = false) :
    (orchStep cfg api s (t, .initMsg a)).apiEvents = s.apiEvents ++ [a]
    ∧ (orchStep cfg api s (t, .initMsg a)).remoteApi = some a
    ∧ (orchStep cfg api s (t, .initMsg a)).outcome = .resolvedHandle
    ∧ (orchStep cfg api s (t, .initMsg a)).done = true := by
  simp [orchStep, hsub, apiCallback, hdone, hres]

/-- C2 witness: a resolved orchestration receiving a refreshed API `7`. -/
theorem setupApiExchange_reemit_witness :
    (orchStep ⟨5000⟩ (.data 0) ⟨true, some 3, .resolvedHandle, false, false, [3], []⟩
        (9000, .initMsg 7)).apiEvents = [3] ++ [7]
    ∧ (orchStep ⟨5000⟩ (.data 0) ⟨true, some 3, .resolvedHandle, false, false, [3], []⟩
        (9000, .initMsg 7)).remoteApi = some 7
    ∧ (orchStep ⟨5000⟩ (.data 0) ⟨true, some 3, .resolvedHandle, false, false, [3], []⟩
        (9000, .initMsg 7)).outcome = .resolvedHandle
    ∧ (orchStep ⟨5000⟩ (.data 0) ⟨true, some 3, .resolvedHandle, false, false, [3], []⟩
        (9000, .initMsg 7)).done = true :=
  setupApiExchange_reemit ⟨5000⟩ (.data 0)
    ⟨true, some 3, .resolvedHandle, false, false, [3], []⟩ 7 9000 rfl rfl rfl

/-- C3: on the tunnel's `connected` event the local API is sent as its
mirror (computed by the object simulator's send path) tagged with the
reserved `INIT_TICKET` carried by `INIT_MESSAGE`; and on receipt of the
remote's init message while unresolved, the orchestration resolves with the
handle whose `getRemoteApi()` accessor yields the just-materialized remote
API. -/
theorem setupApiExchange_handshake (cfg : Config) (apiToSend : Value)
    (s : OrchState) (a t : Nat) (hdone : s.done = false)
    (hpend : s.outcome = .pending) (hsub : s.unsubscribed = false) :
    (orchStep cfg apiToSend s (t, .connected none)).sentMessages
      = s.sentMessages ++ [(INIT_TICKET, (mirrorOf 0 apiToSend).1)]
    ∧ (orchStep cfg apiToSend s (t, .initMsg a)).outcome = .resolvedHandle
    ∧ (orchStep cfg apiToSend s (t, .initMsg a)).remoteApi = some a
    ∧ (orchStep cfg apiToSend s (t, .initMsg a)).done = true := by
  refine ⟨rfl, ?_, ?_, ?_⟩ <;>
    simp [orchStep, hsub, apiCallback, hdone, hpend]

/-- C3 witness: a fresh orchestration sending a one-function API and
receiving remote API `5`. -/
theorem setupApiExchange_handshake_witness :
    (orchStep ⟨5000⟩ (.func 1) initialOrch (10, .connected none)).sentMessages
      = [] ++ [(INIT_TICKET, (mirrorOf 0 (.func 1)).1)]
    ∧ (orchStep ⟨5000⟩ (.func 1) initialOrch (20, .initMsg 5)).outcome
        = .resolvedHandle
    ∧ (orchStep ⟨5000⟩ (.func 1) initialOrch (20, .initMsg 5)).remoteApi = some 5
    ∧ (orchStep ⟨5000⟩ (.func 1) initialOrch (20, .initMsg 5)).done = true :=
  setupApiExchange_handshake ⟨5000⟩ (.func 1) initialOrch 5 20 rfl rfl rfl

/-- C4: while the orchestration is unresolved, a `destroyed` event from the
tunnel — or a failure of the initial send, which runs the same `destroy`
handler — rejects the orchestration promise with that very error and
unsubscribes the `receiveCalls` init-message subscription. -/
theorem setupApiExchange_destroyed (cfg : Config) (api : Value)
    (s : OrchState) (e : Err) (t : Nat) (hdone : s.done = false)
    (hpend : s.outcome = .pending) :
    ((orchStep cfg api s (t, .destroyedEv e)).outcome = .rejected e
      ∧ (orchStep cfg api s (t, .destroyedEv e)).unsubscribed = true)
    ∧ (orchStep cfg api s (t, .connected (some e))).outcome = .rejected e
    ∧ (orchStep cfg api s (t, .connected (some e))).unsubscribed = true := by
  refine ⟨⟨?_, ?_⟩, ?_, ?_⟩ <;>
    simp [orchStep, destroyHandler, hdone, hpend]

/-- C4 witness: a fresh orchestration whose tunnel is destroyed with a
concrete reason. -/
theorem setupApiExchange_destroyed_witness :
    ((orchStep ⟨5000⟩ (.data 0) initialOrch
        (100, .destroyedEv (.destroyedReason "closed"))).outcome
      = .rejected (.destroyedReason "closed")
      ∧ (orchStep ⟨5000⟩ (.data 0) initialOrch
          (100, .destroyedEv (.destroyedReason "closed"))).unsubscribed = true)
    ∧ (orchStep ⟨5000⟩ (.data 0) initialOrch
        (100, .connected (some (.destroyedReason "closed")))).outcome
      = .rejected (.destroyedReason "closed")
    ∧ (orchStep ⟨5000⟩ (.data 0) initialOrch
        (100, .connected (some (.destroyedReason "closed")))).unsubscribed = true :=
  setupApiExchange_destroyed ⟨5000⟩ (.data 0) initialOrch
    (.destroyedReason "closed") 100 rfl rfl

/-- The inner method check of `hasCapabilities` holds exactly when the
property is present and is a function. -/
theorem isFunction_iff (api : GuestApi) (m : String) :
    (match lookupKey m api with
      | some Member.functionMember => true
      | _ => false) = true
    ↔ lookupKey m api = some Member.functionMember := by
  cases hk : lookupKey m api with
  | none => simp
  | some mem => cases mem <;> simp

/-- The per-namespace check of `hasCapabilities` holds exactly when the key
is present and every required method under it is a function property. -/
theorem checkNamespace_iff (apis : List (String × GuestApi))
    (kv : String × List String) :
    (match lookupKey kv.1 apis with
      | none => false
      | some api =>
        kv.2.all fun methodName =>
          match lookupKey methodName api with
          | some Member.functionMember => true
          | _ => false) = true
    ↔ ∃ api, lookupKey kv.1 apis = some api ∧
        ∀ m ∈ kv.2, lookupKey m api = some Member.functionMember := by
  cases hk : lookupKey kv.1 apis with
  | none => simp
  | some api =>
    simp only [List.all_eq_true]
    constructor
    · intro hall
      exact ⟨api, rfl, fun m hm => (isFunction_iff api m).1 (hall m hm)⟩
    · rintro ⟨api', heq, hall⟩
      cases heq
      exact fun m hm => (isFunction_iff api m).2 (hall m hm)

/-- `hasCapabilities` on a ready port returns the boolean namespace check. -/
theorem hasCapabilities_ready (p : Port) (r : CapabilitySpec)
    (h : p.isReady = true) :
    p.hasCapabilities r
      = .ok (r.all fun kv =>
          match lookupKey kv.1 p.apis with
          | none => false
          | some api =>
            kv.2.all fun methodName =>
              match lookupKey methodName api with
              | some Member.functionMember => true
              | _ => false) := by
  unfold Port.hasCapabilities Port.assertReady Port.assert
  rw [h]
  rfl

/-- `hasCapabilities` on a non-ready port throws the `assertReady` error. -/
theorem hasCapabilities_not_ready (q : Port) (r : CapabilitySpec)
    (hq : q.isReady = false) :
    q.hasCapabilities r
      = .error ("Error in guest extension \"" ++ q.id
          ++ "\": " ++ "Attempted to interact before loaded") := by
  unfold Port.hasCapabilities Port.assertReady Port.assert
  rw [hq]
  rfl

/-- C8: on a ready port, `hasCapabilities(required)` succeeds with `true`
exactly when every key of `required` is present in `apis` and every method
name listed under it is a function-typed property of that namespace; in
particular the empty spec always passes. On a non-ready port
`hasCapabilities` throws instead of returning. -/
theorem Port_hasCapabilities_spec (p : Port) (req : CapabilitySpec)
    (h : p.isReady = true) :
    (p.hasCapabilities req = .ok true ↔
      ∀ kv ∈ req, ∃ api, lookupKey kv.1 p.apis = some api ∧
        ∀ m ∈ kv.2, lookupKey m api = some Member.functionMember)
    ∧ p.hasCapabilities [] = .ok true
    ∧ ∀ (q : Port) (r : CapabilitySpec), q.isReady = false →
        ∃ msg, q.hasCapabilities r = .error msg := by
  refine ⟨?_, ?_, ?_⟩
  · rw [hasCapabilities_ready p req h]
    simp only [Except.ok.injEq, List.all_eq_true]
    exact forall_congr' fun kv =>
      imp_congr_right fun _ => checkNamespace_iff p.apis kv
  · rw [hasCapabilities_ready p [] h]
    rfl
  · intro q r hq
    exact ⟨_, hasCapabilities_not_ready q r hq⟩

/-- C8 witness: a loaded, error-free port exposing a `spellCheck`
namespace with function properties `correct` and `suggest`. -/
theorem Port_hasCapabilities_spec_witness :
    ((Port.mk "ext1"
        [("spellCheck",
          [("correct", .functionMember), ("suggest", .functionMember)])]
        true none).hasCapabilities [("spellCheck", ["correct", "suggest"])]
        = .ok true ↔
      ∀ kv ∈ ([("spellCheck", ["correct", "suggest"])] : CapabilitySpec),
        ∃ api, lookupKey kv.1
            (Port.mk "ext1"
              [("spellCheck",
                [("correct", .functionMember), ("suggest", .functionMember)])]
              true none).apis = some api ∧
          ∀ m ∈ kv.2, lookupKey m api = some Member.functionMember)
    ∧ (Port.mk "ext1"
        [("spellCheck",
          [("correct", .functionMember), ("suggest", .functionMember)])]
        true none).hasCapabilities [] = .ok true
    ∧ ∀ (q : Port) (r : CapabilitySpec), q.isReady = false →
        ∃ msg, q.hasCapabilities r = .error msg :=
  Port_hasCapabilities_spec
    (Port.mk "ext1"
      [("spellCheck",
        [("correct", .functionMember), ("suggest", .functionMember)])]
      true none)
    [("spellCheck", ["correct", "suggest"])] rfl

/-- The body of `areExtensionsDifferent` returns `false` exactly when the
two (sorted) id lists are equal. -/
theorem idListCheck_false_iff (l1 l2 : List String) :
    (l1.length != l2.length ||
      (List.range l1.length).any fun i => l1.getD i "" != l2.getD i "") = false
    ↔ l1 = l2 := by
  constructor
  · intro hfalse
    rw [Bool.or_eq_false_iff] at hfalse
    obtain ⟨hlen, hany⟩ := hfalse
    rw [bne_eq_false_iff_eq] at hlen
    rw [List.any_eq_false] at hany
    apply List.ext_getElem hlen
    intro i h1 h2
    have hi := hany i (List.mem_range.2 h1)
    simp only [bne_iff_ne, ne_eq, not_not] at hi
    rw [List.getD_eq_getElem l1 "" h1, List.getD_eq_getElem l2 "" h2] at hi
    exact hi
  · rintro rfl
    simp

/-- C9: `areExtensionsDifferent(s1, s2)` returns `false` exactly when the
sorted key lists of the two sets are equal; the bound values never affect
the result (sets with the same key lists compare identically); and when
the ids coincide the `Extensible` component keeps its previous
`installedRef` value. -/
theorem areExtensionsDifferent_spec (s1 s2 s1' s2' : InstalledExtensions)
    (h1 : s1.map Prod.fst = s1'.map Prod.fst)
    (h2 : s2.map Prod.fst = s2'.map Prod.fst) :
    (areExtensionsDifferent s1 s2 = false ↔ sortedIds s1 = sortedIds s2)
    ∧ areExtensionsDifferent s1 s2 = areExtensionsDifferent s1' s2'
    ∧ (sortedIds s1 = sortedIds s2 → updateInstalledRef (some s1) s2 = s1) := by
  have hiff : areExtensionsDifferent s1 s2 = false ↔ sortedIds s1 = sortedIds s2 :=
    idListCheck_false_iff (sortedIds s1) (sortedIds s2)
  refine ⟨hiff, ?_, ?_⟩
  · unfold areExtensionsDifferent sortedIds
    rw [h1, h2]
  · intro hs
    show (if areExtensionsDifferent s1 s2 = true then s2 else s1) = s1
    rw [hiff.2 hs]
    rfl

/-- C9 witness: two singleton sets with the same id `"a"` but different
values are not different, and the previous `installedRef` is kept. -/
theorem areExtensionsDifferent_spec_witness :
    (areExtensionsDifferent [("a", 1)] [("a", 2)] = false ↔
      sortedIds [("a", 1)] = sortedIds [("a", 2)])
    ∧ areExtensionsDifferent [("a", 1)] [("a", 2)]
        = areExtensionsDifferent [("a", 3)] [("a", 4)]
    ∧ (sortedIds [("a", 1)] = sortedIds [("a", 2)] →
        updateInstalledRef (some [("a", 1)]) [("a", 2)] = [("a", 1)]) :=
  areExtensionsDifferent_spec [("a", 1)] [("a", 2)] [("a", 3)] [("a", 4)] rfl rfl
